import Mathlib

/-!
# Verification of `DICOMPlugins/DICOMTID1500Plugin.py`

Shallow embedding, in Lean 4, of the data model and the pure/stateful cores of the
DICOM SR TID1500 import plugin (`DICOMTID1500PluginClass`), together with theorems
settling the specification claims about:

* column-name deduplication (`enumerateDuplicateNames`),
* report ordering keys (`getDateTime` / `sortReportsByDateTime`),
* concept matching (`isConcept`),
* the length-ruler geometry path of `loadAdditionalMeasurements`,
* the error-handling split between the length-ruler and bounding-box paths,
* reference resolution and multiplicity warnings (`createLoadableAndAddReferences`),
* bounding-box derived geometry (`extractBboxMetadataToVtkTableNode`),
* TID1500 recognition (`isDICOMTID1500`),
* the unbound/stale geometry state of `extractBboxMetadataToVtkTableNode`,
* the last-wins flag of `checkIfSRContainsBbox`.

Python floats are modelled as rationals (`ℚ`), Python `None`/absent attributes as
`Option`, and raised exceptions as `Except.error`.
-/

namespace TID1500

/-! ## Column-name deduplication (`enumerateDuplicateNames`, lines 914-927)

The Python function receives a list of info items and rewrites their `"name"` fields;
only the names are read and written, so the embedding operates on the list of names.

```
names = [item["name"] for item in items]
counts = {k: v for k, v in Counter(names).items() if v > 1}
nameListCopy = names[:]
for i in reversed(range(len(names))):
  item = names[i]
  if item in counts and counts[item]:
    nameListCopy[i] += " (%s)" % str(counts[item])
    counts[item] -= 1
```

The loop visits indices from the last to the first; `enumDupLoop` mirrors this by
recursing into the tail (the later indices) before handling the head.  The mutable
`counts` dict is modelled as a function `String → Nat`; `item in counts and
counts[item]` is `0 < counts item` because names that occur at most once are never
put into `counts` (they map to `0`).
-/

/-- One pass of the reversed loop of `enumerateDuplicateNames`: processes the later
list elements first (threading the mutable `counts` state through them), then the
head.  Returns the final counts and the rewritten list. -/
def enumDupLoop (counts : String → Nat) : List String → (String → Nat) × List String
  | [] => (counts, [])
  | n :: rest =>
    let processed := enumDupLoop counts rest
    let c := processed.1
    if 0 < c n then
      (fun k => if k = n then c n - 1 else c k,
       (n ++ " (" ++ toString (c n) ++ ")") :: processed.2)
    else
      (c, n :: processed.2)

/-- Model of `enumerateDuplicateNames` (lines 914-927), on the list of `"name"` fields:
names occurring more than once get a ` (k)` suffix with a counter that starts at the
total occurrence count at the last occurrence and decrements towards the first. -/
def enumerateDuplicateNames (names : List String) : List String :=
  let counts : String → Nat := fun k => if 1 < names.count k then names.count k else 0
  (enumDupLoop counts names).2

/-! ## Bounding-box derived geometry (lines 442-449)

```
min_x = np.min([bbox[0], bbox[2], bbox[4], bbox[6]])
max_x = np.max([bbox[0], bbox[2], bbox[4], bbox[6]])
min_y = np.min([bbox[1], bbox[3], bbox[5], bbox[7]])
max_y = np.max([bbox[1], bbox[3], bbox[5], bbox[7]])
width = max_x - min_x
height = max_y - min_y
center_x = min_x + width/2
center_y = min_y + height/2
```
-/

/-- The local variables assigned by lines 442-449. -/
structure BboxDerivedVals where
  min_x : ℚ
  max_x : ℚ
  min_y : ℚ
  max_y : ℚ
  width : ℚ
  height : ℚ
  center_x : ℚ
  center_y : ℚ
deriving DecidableEq, Repr

/-- Derived quantities computed by `extractBboxMetadataToVtkTableNode` from the
first 8 entries of a POLYLINE `GraphicData` (4 points, interleaved x/y). -/
def bboxDerived (b0 b1 b2 b3 b4 b5 b6 b7 : ℚ) : BboxDerivedVals :=
  let min_x := min (min b0 b2) (min b4 b6)
  let max_x := max (max b0 b2) (max b4 b6)
  let min_y := min (min b1 b3) (min b5 b7)
  let max_y := max (max b1 b3) (max b5 b7)
  let width := max_x - min_x
  let height := max_y - min_y
  let center_x := min_x + width / 2
  let center_y := min_y + height / 2
  { min_x := min_x, max_x := max_x, min_y := min_y, max_y := max_y,
    width := width, height := height, center_x := center_x, center_y := center_y }

/-! ## Report ordering keys (`sortReportsByDateTime` / `getDateTime`, lines 148-167)

`getDateTime` reads the dataset of one report and builds a sort key:

```
if hasattr(dataset, "SeriesDate") and hasattr(dataset, "SeriesTime"):
  date = dataset.SeriesDate
  time = dataset.SeriesTime
elif hasattr(dataset, "StudyDate") and hasattr(dataset, "StudyTime"):
  date = dataset.StudyDate
  time = dataset.StudyDate        # <- line 159: StudyDate, not StudyTime
else:
  date = ""
  time = ""
try:
  dateTime = datetime.datetime.strptime(date+time, "%Y%m%d%H%M%S")
except ValueError:
  dateTime = ""
```

Missing DICOM attributes are `Option.none`; the `""` sentinel produced by the
`except ValueError` branch is `Option.none` in the embedding, a parsed timestamp is
`Option.some` of its digit string read as a number. -/

/-- The date/time attributes of a report dataset that `getDateTime` consults. -/
structure ReportDataset where
  SeriesDate : Option String
  SeriesTime : Option String
  StudyDate : Option String
  StudyTime : Option String
deriving DecidableEq, Repr

/-- Digits of a character list read as a base-10 numeral (helper for the strptime
model). -/
def digitsToNat (cs : List Char) : Nat :=
  cs.foldl (fun acc c => acc * 10 + (c.toNat - 48)) 0

/-- Model of `datetime.datetime.strptime(s, "%Y%m%d%H%M%S")` (Python standard
library collaborator): succeeds exactly on 14-digit strings whose month, day, hour,
minute and second fields are in range (calendar day-in-month granularity beyond
1..31 is not modelled; no claim depends on it), and returns the numeral value of
the digit string, which orders timestamps chronologically. -/
def strptimeYmdHMS (s : String) : Option Nat :=
  let cs := s.data
  if cs.length = 14 ∧ cs.all Char.isDigit then
    let mo := digitsToNat ((cs.drop 4).take 2)
    let dy := digitsToNat ((cs.drop 6).take 2)
    let hr := digitsToNat ((cs.drop 8).take 2)
    let mi := digitsToNat ((cs.drop 10).take 2)
    let se := digitsToNat ((cs.drop 12).take 2)
    if 1 ≤ mo ∧ mo ≤ 12 ∧ 1 ≤ dy ∧ dy ≤ 31 ∧ hr ≤ 23 ∧ mi ≤ 59 ∧ se ≤ 59 then
      some (digitsToNat cs)
    else none
  else none

/-- Model of `getDateTime` (lines 151-167): the `(date, time)` pair selected by the
`hasattr` cascade, concatenated and parsed; `none` is the `""` sentinel.
Line 159 of the source assigns `time = dataset.StudyDate` in the study-level
fallback branch. -/
def getDateTime (ds : ReportDataset) : Option Nat :=
  let dateTimePair : String × String :=
    match ds.SeriesDate, ds.SeriesTime with
    | some d, some t => (d, t)
    | _, _ =>
      match ds.StudyDate, ds.StudyTime with
      | some d, some _ => (d, d)
      | _, _ => ("", "")
  strptimeYmdHMS (dateTimePair.1 ++ dateTimePair.2)

/-- Modelled from the spec: the sort key the claim describes for `getDateTime` —
series date+time when both present, otherwise study **date**+**time** when both
present, parsed with the fixed `YYYYMMDDHHMMSS` pattern.  Used only to exhibit the
divergence of the study-level fallback in the source from the claim. -/
def getDateTimeClaimed (ds : ReportDataset) : Option Nat :=
  let dateTimePair : String × String :=
    match ds.SeriesDate, ds.SeriesTime with
    | some d, some t => (d, t)
    | _, _ =>
      match ds.StudyDate, ds.StudyTime with
      | some d, some t => (d, t)
      | _, _ => ("", "")
  strptimeYmdHMS (dateTimePair.1 ++ dateTimePair.2)

/-! ## Concept matching (`isConcept`, lines 929-931) and the codings registry

```
def isConcept(self, item, coding):
  code = item.ConceptNameCodeSequence[0]
  return code.CodingSchemeDesignator == self.codings[coding]["scheme"] and \
         code.CodeValue == self.codings[coding]["value"]
```

`pydicom` raises `AttributeError` when `ConceptNameCodeSequence` is absent and
`IndexError` when it is empty; `isConcept` catches neither. -/

/-- A coded entry `(CodeValue, CodingSchemeDesignator, CodeMeaning)`. -/
structure ConceptCode where
  CodeValue : String
  CodingSchemeDesignator : String
  CodeMeaning : String
deriving DecidableEq, Repr

/-- A content item as consulted by `isConcept`: `none` models a dataset without a
`ConceptNameCodeSequence` attribute (attribute access raises), `some []` an empty
sequence (indexing raises). -/
structure ContentItem where
  ConceptNameCodeSequence : Option (List ConceptCode)
deriving DecidableEq, Repr

/-- The `self.codings` registry populated in `__init__` (lines 37-46):
`name → (scheme, value)`. -/
def codings : String → Option (String × String)
  | "imagingMeasurementReport" => some ("DCM", "126000")
  | "personObserver" => some ("DCM", "121008")
  | "imagingMeasurements" => some ("DCM", "126010")
  | "measurementGroup" => some ("DCM", "125007")
  | "trackingIdentifier" => some ("DCM", "112039")
  | "trackingUniqueIdentifier" => some ("DCM", "112040")
  | "findingSite" => some ("SRT", "G-C0E3")
  | "length" => some ("SRT", "G-D7FE")
  | _ => none

/-- Model of `isConcept` (lines 929-931).  `Except.error` models the uncaught Python
exceptions: `AttributeError`/`IndexError` when the item has no concept-name code,
`KeyError` when the registry key is unknown. -/
def isConcept (item : ContentItem) (coding : String) : Except String Bool :=
  match item.ConceptNameCodeSequence with
  | none => Except.error "AttributeError: ConceptNameCodeSequence"
  | some [] => Except.error "IndexError: ConceptNameCodeSequence[0]"
  | some (code :: _) =>
    match codings coding with
    | none => Except.error "KeyError"
    | some registryEntry =>
      Except.ok (code.CodingSchemeDesignator == registryEntry.1 &&
                 code.CodeValue == registryEntry.2)

/-! ## TID1500 recognition (`isDICOMTID1500`, lines 80-89)

`getDICOMValue` is the external `ModuleLogicMixin` collaborator: `getattr` with
default `""` for a missing attribute.  For string-valued tags the embedding keeps
the attribute as `Option String` and reads it with `Option.getD ""`.  For
`ContentTemplateSequence` the default `""` makes the subsequent `[0]` raise
`IndexError`, which the `except (AttributeError, IndexError)` of the source turns
into `False`; likewise an empty sequence, or a first item without a
`TemplateIdentifier` attribute. -/

/-- The three accepted SR storage SOP classes (lines 27-29). -/
def UID_EnhancedSRStorage : String := "1.2.840.10008.5.1.4.1.1.88.22"
def UID_ComprehensiveSRStorage : String := "1.2.840.10008.5.1.4.1.1.88.33"
def UID_Comprehensive3DSRStorage : String := "1.2.840.10008.5.1.4.1.1.88.34"

/-- Segmentation storage SOP class (line 30). -/
def UID_SegmentationStorage : String := "1.2.840.10008.5.1.4.1.1.66.4"

/-- Real World Value Mapping storage SOP class (line 31). -/
def UID_RealWorldValueMappingStorage : String := "1.2.840.10008.5.1.4.1.1.67"

/-- An item of `ContentTemplateSequence`; `TemplateIdentifier` absent models the
`AttributeError` case. -/
structure TemplateSeqItem where
  TemplateIdentifier : Option String
deriving DecidableEq, Repr

/-- The header attributes of a dataset consulted by `isDICOMTID1500`. -/
structure SRHeader where
  Modality : Option String
  SOPClassUID : Option String
  ContentTemplateSequence : Option (List TemplateSeqItem)
deriving DecidableEq, Repr

/-- The template identifier check of line 86 (`TemplateIdentifier == "1500"` on the
first `ContentTemplateSequence` item):
`false` on every exception path folded in by the `try/except` of lines 87-88 —
missing sequence (the `getDICOMValue` default `""` makes `[0]` raise `IndexError`),
empty sequence (`IndexError`), or first item without the attribute
(`AttributeError`). -/
def templateIs1500 (cts : Option (List TemplateSeqItem)) : Bool :=
  match cts with
  | none => false
  | some [] => false
  | some (item :: _) =>
    match item.TemplateIdentifier with
    | none => false
    | some t => t == "1500"

/-- Model of `isDICOMTID1500` (lines 80-89): the conjunction of the modality, SOP class and
template identifier checks, with every exception of the template access folded
into `false` by the surrounding `try/except (AttributeError, IndexError)`. -/
def isDICOMTID1500 (ds : SRHeader) : Bool :=
  (ds.Modality.getD "" == "SR") &&
  (ds.SOPClassUID.getD "" == UID_EnhancedSRStorage ||
   ds.SOPClassUID.getD "" == UID_ComprehensiveSRStorage ||
   ds.SOPClassUID.getD "" == UID_Comprehensive3DSRStorage) &&
  templateIs1500 ds.ContentTemplateSequence

/-! ## Length-ruler geometry (`loadAdditionalMeasurements`, lines 996-1007)

```
reference = pydicom.read_file(referenceFilePath)
origin = numpy.array(reference.ImagePositionPatient)
alongColumnVector = numpy.array(reference.ImageOrientationPatient[:3])
alongRowVector = numpy.array(reference.ImageOrientationPatient[3:])
alongColumnVector *= reference.PixelSpacing[1]
alongRowVector *= reference.PixelSpacing[0]
col1,row1,col2,row2 = measurement["polyline"]
lpsToRAS = numpy.array([-1,-1,1])
p1 = (origin + col1 * alongColumnVector + row1 * alongRowVector) * lpsToRAS
p2 = (origin + col2 * alongColumnVector + row2 * alongRowVector) * lpsToRAS
```

DICOM `PixelSpacing` is `[row spacing, column spacing]`, so `PixelSpacing[1]` is
the column spacing and `PixelSpacing[0]` the row spacing. -/

/-- A 3-vector of rationals (numpy 3-array of floats). -/
structure Vec3 where
  x : ℚ
  y : ℚ
  z : ℚ
deriving DecidableEq, Repr

/-- Componentwise vector sum (numpy `+`). -/
def vadd (a b : Vec3) : Vec3 := ⟨a.x + b.x, a.y + b.y, a.z + b.z⟩

/-- Scalar multiple (numpy scalar `*`). -/
def vscale (s : ℚ) (a : Vec3) : Vec3 := ⟨s * a.x, s * a.y, s * a.z⟩

/-- The `lpsToRAS = [-1,-1,1]` componentwise sign flip (line 1003). -/
def lpsToRAS (a : Vec3) : Vec3 := ⟨-a.x, -a.y, a.z⟩

/-- The attributes of the referenced source image consulted by the length-ruler
path: `ImagePositionPatient`, the two halves of `ImageOrientationPatient`, and the
two entries of `PixelSpacing` (`[0]` = row spacing, `[1]` = column spacing). -/
structure ReferenceImage where
  ImagePositionPatient : Vec3
  ImageOrientationPatientFirst3 : Vec3
  ImageOrientationPatientLast3 : Vec3
  PixelSpacing0 : ℚ
  PixelSpacing1 : ℚ
deriving DecidableEq, Repr

/-- The two 3D points computed by lines 997-1005 for a 4-number polyline
`(col1, row1, col2, row2)`, **before** the `lpsToRAS` sign flip. -/
def lengthRulerPoints (reference : ReferenceImage) (polyline : ℚ × ℚ × ℚ × ℚ) :
    Vec3 × Vec3 :=
  let origin := reference.ImagePositionPatient
  let alongColumnVector :=
    vscale reference.PixelSpacing1 reference.ImageOrientationPatientFirst3
  let alongRowVector :=
    vscale reference.PixelSpacing0 reference.ImageOrientationPatientLast3
  match polyline with
  | (col1, row1, col2, row2) =>
    (vadd (vadd origin (vscale col1 alongColumnVector)) (vscale row1 alongRowVector),
     vadd (vadd origin (vscale col2 alongColumnVector)) (vscale row2 alongRowVector))

/-! ## Error-handling split: length-ruler vs bounding-box reference lookup

Length-ruler path (lines 992-994):
```
referenceFilePath = slicer.dicomDatabase.fileForInstance(measurement["referencedSOPInstanceUID"])
if not referenceFilePath:
  raise Exception(...)
```
Bounding-box path (lines 433-436):
```
try:
  referenced_sop_instance_uid = roi.ContentSequence[0].referenced_sop_instance_uid
except:
  print("Cannot access referenced SOPInstanceUID")
```
The file-lookup collaborator `fileForInstance` is a parameter `String → Option
String` (`none` = no file for the instance UID; Python also treats an empty path
string as falsy). -/

/-- Lines 992-994: resolve the referenced source image of a length measurement,
raising (`Except.error`) when the lookup collaborator yields nothing (or an empty,
falsy, path). -/
def resolveLengthReference (fileForInstance : String → Option String)
    (referencedSOPInstanceUID : String) : Except String String :=
  match fileForInstance referencedSOPInstanceUID with
  | none => Except.error
      "Referenced image is not found in the database. Polyline point positions cannot be determined in 3D."
  | some referenceFilePath =>
    if referenceFilePath = "" then
      Except.error
        "Referenced image is not found in the database. Polyline point positions cannot be determined in 3D."
    else Except.ok referenceFilePath

/-- Lines 433-436: the referenced-SOP access of the bounding-box path.  The argument is
`some uid` when `roi.ContentSequence[0].referenced_sop_instance_uid` is accessible
and `none` when the access would raise; the bare `except` converts the failure into
a printed message (first component) and continues (the result is always
`Except.ok`; the second component is the—possibly unbound—value of
`referenced_sop_instance_uid` after the statement). -/
def bboxRefSOPAccess (accessResult : Option String) :
    Except String (List String × Option String) :=
  match accessResult with
  | none => Except.ok (["Cannot access referenced SOPInstanceUID"], none)
  | some uid => Except.ok ([], some uid)

/-! ## `checkIfSRContainsBbox` (lines 196-224)

```
checkIfSRContainsBbox = 0
for group in groups:
  qual_evals = group.get_qualitative_evaluations()
  for qual_eval in qual_evals:
    if <qual_eval is the DCM 130400 / SCT 75958009 "Bounded by" pair>:
      checkIfSRContainsBbox = 1
    else:
      checkIfSRContainsBbox = 0
```
-/

/-- A qualitative evaluation: a name code and a value code. -/
structure QualitativeEvaluation where
  name : ConceptCode
  value : ConceptCode
deriving DecidableEq, Repr

/-- A planar ROI measurement group as consulted by `checkIfSRContainsBbox`. -/
structure QEGroup where
  qualitativeEvaluations : List QualitativeEvaluation
deriving DecidableEq, Repr

/-- The six-field comparison of lines 214-219. -/
def isBoundedByEval (q : QualitativeEvaluation) : Bool :=
  q.name.CodeValue == "130400" &&
  q.name.CodingSchemeDesignator == "DCM" &&
  q.name.CodeMeaning == "Geometric purpose of region" &&
  q.value.CodeValue == "75958009" &&
  q.value.CodingSchemeDesignator == "SCT" &&
  q.value.CodeMeaning == "Bounded by"

/-- Model of `checkIfSRContainsBbox` (lines 196-224): the flag starts at `0` and is
overwritten—to `1` or back to `0`—by every qualitative evaluation visited. -/
def checkIfSRContainsBbox (groups : List QEGroup) : Nat :=
  groups.foldl
    (fun flag group =>
      group.qualitativeEvaluations.foldl
        (fun _fl q => if isBoundedByEval q then 1 else 0) flag)
    0

/-! ## Reference resolution (`createLoadableAndAddReferences`, lines 98-146)

The evidence sequence of each dataset is walked with three nested loops
(lines 116-118) classifying every `(series, SOP reference)` pair by its
`ReferencedSOPClassUID` (lines 119-129).  The embedding flattens the three loops
into a fold over the pairs in visit order.  The delegation to the segmentation
plugin collaborator (lines 131-134, filling `referencedInstanceUIDs`) only feeds a
field no claim depends on and is elided.

The Python dict `ReferencedSegmentationInstanceUIDs` is an insertion-ordered
association list; assignment to an existing key overwrites in place. -/

/-- An item of a `ReferencedSOPSequence`. -/
structure SOPSeqRef where
  ReferencedSOPClassUID : String
  ReferencedSOPInstanceUID : String
deriving DecidableEq, Repr

/-- An item of a `ReferencedSeriesSequence`. -/
structure SeriesSeqRef where
  SeriesInstanceUID : String
  ReferencedSOPSequence : List SOPSeqRef
deriving DecidableEq, Repr

/-- An item of `CurrentRequestedProcedureEvidenceSequence`. -/
structure EvidenceSeqItem where
  ReferencedSeriesSequence : List SeriesSeqRef
deriving DecidableEq, Repr

/-- The attributes of one SR dataset consulted by the reference resolver. -/
structure SRDatasetRefs where
  SOPInstanceUID : String
  CurrentRequestedProcedureEvidenceSequence : Option (List EvidenceSeqItem)
deriving DecidableEq, Repr

/-- Python-dict read: first entry with the given key. -/
def assocGet (m : List (String × List String)) (k : String) : Option (List String) :=
  match m with
  | [] => none
  | (k0, v0) :: rest => if k0 = k then some v0 else assocGet rest k

/-- Python-dict assignment `m[k] = v`: overwrite in place, or append a new key. -/
def assocSet (m : List (String × List String)) (k : String) (v : List String) :
    List (String × List String) :=
  match m with
  | [] => [(k, v)]
  | (k0, v0) :: rest => if k0 = k then (k, v) :: rest else (k0, v0) :: assocSet rest k v

/-- Python `m[k].append(s)` (the key is always present when the source calls it,
having been set at the top of the loop). -/
def assocAppend (m : List (String × List String)) (k : String) (s : String) :
    List (String × List String) :=
  assocSet m k ((assocGet m k).getD [] ++ [s])

/-- The mutable state of the loadable built by `createLoadableAndAddReferences`,
restricted to the fields the resolver itself writes.  `warnings` records the
`logging.warning` side effects. -/
structure Loadable where
  referencedSegInstanceUIDs : List String
  ReferencedSegmentationInstanceUIDs : List (String × List String)
  ReferencedRWVMSeriesInstanceUIDs : List String
  ReferencedOtherInstanceUIDs : List String
  warnings : List String
deriving DecidableEq, Repr

/-- The `(SeriesInstanceUID, SOP reference)` pairs visited by the three nested
loops of lines 116-118, in visit order. -/
def evidencePairs (ev : List EvidenceSeqItem) : List (String × SOPSeqRef) :=
  (ev.map (fun item =>
    (item.ReferencedSeriesSequence.map (fun sr =>
      sr.ReferencedSOPSequence.map (fun sop => (sr.SeriesInstanceUID, sop)))).flatten)).flatten

/-- Classification of one reference pair (lines 119-129). -/
def classifyRef (uid : String) (ld : Loadable) (p : String × SOPSeqRef) : Loadable :=
  if p.2.ReferencedSOPClassUID == UID_SegmentationStorage then
    { ld with ReferencedSegmentationInstanceUIDs :=
        assocAppend ld.ReferencedSegmentationInstanceUIDs uid p.1 }
  else if p.2.ReferencedSOPClassUID == UID_RealWorldValueMappingStorage then
    { ld with ReferencedRWVMSeriesInstanceUIDs :=
        ld.ReferencedRWVMSeriesInstanceUIDs ++ [p.1] }
  else
    { ld with ReferencedOtherInstanceUIDs :=
        ld.ReferencedOtherInstanceUIDs ++ [p.2.ReferencedSOPInstanceUID] }

/-- One iteration of the `for dataset in datasets` loop (lines 112-129): reset the
per-report segmentation entry, then classify all evidence pairs; a dataset without
an evidence sequence only resets its entry. -/
def processDataset (ld : Loadable) (ds : SRDatasetRefs) : Loadable :=
  let m1 := assocSet ld.ReferencedSegmentationInstanceUIDs ds.SOPInstanceUID []
  let ld1 := { ld with ReferencedSegmentationInstanceUIDs := m1 }
  match ds.CurrentRequestedProcedureEvidenceSequence with
  | none => ld1
  | some ev => (evidencePairs ev).foldl (classifyRef ds.SOPInstanceUID) ld1

/-- Warning text of line 139. -/
def segMultiplicityWarning : String :=
  "SR references more than one SEG. This has not been tested!"

/-- Warning text of line 144. -/
def rwvmMultiplicityWarning : String :=
  "SR references more than one RWVM. This has not been tested!"

/-- The series UIDs of the reference pairs classified as Segmentation storage, in
visit order; specification-side summary of the accumulation done by `classifyRef`. -/
def segSeriesOfPairs (ps : List (String × SOPSeqRef)) : List String :=
  (ps.filter (fun p => p.2.ReferencedSOPClassUID == UID_SegmentationStorage)).map
    Prod.fst

/-- The series UIDs of the reference pairs classified as RWVM storage (those that
miss the Segmentation test and match RWVM storage), in visit order. -/
def rwvmSeriesOfPairs (ps : List (String × SOPSeqRef)) : List String :=
  (ps.filter (fun p => !(p.2.ReferencedSOPClassUID == UID_SegmentationStorage) &&
      p.2.ReferencedSOPClassUID == UID_RealWorldValueMappingStorage)).map
    Prod.fst

/-- The segmentation series UIDs one dataset contributes. -/
def segSeriesOf (ds : SRDatasetRefs) : List String :=
  match ds.CurrentRequestedProcedureEvidenceSequence with
  | none => []
  | some ev => segSeriesOfPairs (evidencePairs ev)

/-- The RWVM series UIDs one dataset contributes. -/
def rwvmSeriesOf (ds : SRDatasetRefs) : List String :=
  match ds.CurrentRequestedProcedureEvidenceSequence with
  | none => []
  | some ev => rwvmSeriesOfPairs (evidencePairs ev)

/-- Model of `createLoadableAndAddReferences` (lines 98-146).  After the dataset loop, line
138 reads the loop variable `uid` — the SOP instance UID of the last dataset (a
`NameError`, modelled as `Except.error`, when `datasets` is empty) — to decide the
SEG multiplicity warning; lines 140-141 copy the dict keys in insertion order;
lines 143-144 decide the RWVM multiplicity warning from the accumulated list. -/
def createLoadableAndAddReferences (datasets : List SRDatasetRefs) :
    Except String Loadable :=
  match datasets with
  | [] => Except.error "NameError: name uid is not defined"
  | d :: rest =>
    let ld0 : Loadable := ⟨[], [], [], [], []⟩
    let ld := (d :: rest).foldl processDataset ld0
    let uid := (rest.getLastD d).SOPInstanceUID
    let segWarn :=
      if 1 < ((assocGet ld.ReferencedSegmentationInstanceUIDs uid).getD []).length
      then [segMultiplicityWarning] else []
    let segKeys := ld.ReferencedSegmentationInstanceUIDs.map Prod.fst
    let ld2 := { ld with referencedSegInstanceUIDs :=
        ld.referencedSegInstanceUIDs ++ segKeys }
    let rwvmWarn :=
      if 1 < ld2.ReferencedRWVMSeriesInstanceUIDs.length
      then [rwvmMultiplicityWarning] else []
    Except.ok { ld2 with warnings := ld2.warnings ++ segWarn ++ rwvmWarn }

/-! ## Bounding-box extraction state (`extractBboxMetadataToVtkTableNode`,
lines 395-471)

Per group, the variables `referenced_sop_instance_uid` (assigned in the
Image-Region branch, lines 432-436, inside a bare `try/except` that prints on
failure) and `bbox`/`width`/`height`/`center_x`/`center_y`/`center_z` (assigned
only in the nested POLYLINE branch, lines 438-451) are Python locals that persist
across loop iterations; the `poly_infos.append` of lines 454-466 reads them
unconditionally.  `GeomState` carries their bindings (`none` = still unbound, in
which case the read raises).  The per-group values `tracking_uid`, `finding_type`
and `finding_sites` are read and stored exactly like `tracking_identifier`, which
stands for them in the embedding.  `getIPPFromSOP(...)[2]` (line 450) is the
image-metadata collaborator, passed in as a total lookup `ippZ` (its own failure
mode is settled separately). -/

/-- The `group.reference_type` code as compared by lines 428-430. -/
structure ReferenceTypeCode where
  value : String
  scheme_designator : String
  meaning : String
deriving DecidableEq, Repr

/-- The ROI attributes consulted by the extractor; `none` for the referenced-SOP
access models `roi.ContentSequence[0].referenced_sop_instance_uid` raising. -/
structure BboxROI where
  referencedSOPInstanceUIDAccess : Option String
  GraphicType : String
  GraphicData : List ℚ
deriving DecidableEq, Repr

/-- A planar ROI measurement group as consulted by the extractor. -/
structure PlanarROIGroup where
  tracking_identifier : String
  reference_type : ReferenceTypeCode
  roi : BboxROI
deriving DecidableEq, Repr

/-- The bindings of `bbox`-derived locals after a POLYLINE branch; `polyline`
stores the pairs `[[bbox[0],bbox[1]],...,[bbox[6],bbox[7]]]` that the append
builds from `bbox`. -/
structure BboxGeomVars where
  polyline : List (ℚ × ℚ)
  width : ℚ
  height : ℚ
  center_x : ℚ
  center_y : ℚ
  center_z : ℚ
deriving DecidableEq, Repr

/-- The cross-iteration variable bindings (`none` = unbound so far). -/
structure GeomState where
  referenced_sop_instance_uid : Option String
  geom : Option BboxGeomVars
deriving DecidableEq, Repr

/-- One record appended to `poly_infos` (lines 454-466); `center_x`/`center_y`
are negated at append time. -/
structure BboxRecord where
  TrackingIdentifier : String
  SOPInstanceUID : String
  polyline : List (ℚ × ℚ)
  width : ℚ
  height : ℚ
  center_x : ℚ
  center_y : ℚ
  center_z : ℚ
deriving DecidableEq, Repr

/-- The Image-Region reference-type test of lines 428-430. -/
def imageRegionMatches (g : PlanarROIGroup) : Bool :=
  g.reference_type.value == "111030" &&
  g.reference_type.scheme_designator == "DCM" &&
  g.reference_type.meaning == "Image Region"

/-- One iteration of the `for group in groups` loop of
`extractBboxMetadataToVtkTableNode`: conditional variable updates (lines 428-451)
followed by the unconditional append (lines 454-466).  `Except.error` models the
uncaught `NameError`/`UnboundLocalError`/`IndexError` paths. -/
def processBboxGroup (ippZ : String → ℚ) (st : GeomState) (g : PlanarROIGroup) :
    Except String (GeomState × BboxRecord) :=
  let st1E : Except String GeomState :=
    if imageRegionMatches g then
      let sop := match g.roi.referencedSOPInstanceUIDAccess with
                 | some u => some u
                 | none => st.referenced_sop_instance_uid
      if g.roi.GraphicType == "POLYLINE" then
        match g.roi.GraphicData with
        | b0 :: b1 :: b2 :: b3 :: b4 :: b5 :: b6 :: b7 :: _ =>
          match sop with
          | none => Except.error "NameError: referenced_sop_instance_uid"
          | some s =>
            let d := bboxDerived b0 b1 b2 b3 b4 b5 b6 b7
            Except.ok (⟨some s,
              some { polyline := [(b0, b1), (b2, b3), (b4, b5), (b6, b7)],
                     width := d.width, height := d.height,
                     center_x := d.center_x, center_y := d.center_y,
                     center_z := ippZ s }⟩ : GeomState)
        | _ => Except.error "IndexError: bbox"
      else
        Except.ok { st with referenced_sop_instance_uid := sop }
    else
      Except.ok st
  match st1E with
  | Except.error e => Except.error e
  | Except.ok st1 =>
    match st1.referenced_sop_instance_uid, st1.geom with
    | some sop, some geomVars =>
      Except.ok (st1,
        { TrackingIdentifier := g.tracking_identifier,
          SOPInstanceUID := sop,
          polyline := geomVars.polyline,
          width := geomVars.width,
          height := geomVars.height,
          center_x := -geomVars.center_x,
          center_y := -geomVars.center_y,
          center_z := geomVars.center_z })
    | _, _ => Except.error "UnboundLocalError"

/-- The group loop of `extractBboxMetadataToVtkTableNode`, threading the variable
bindings and collecting the appended records; any raised exception aborts the
whole extraction. -/
def extractBboxLoop (ippZ : String → ℚ) (st : GeomState) :
    List PlanarROIGroup → Except String (List BboxRecord)
  | [] => Except.ok []
  | g :: rest =>
    match processBboxGroup ippZ st g with
    | Except.error e => Except.error e
    | Except.ok step =>
      match extractBboxLoop ippZ step.1 rest with
      | Except.error e => Except.error e
      | Except.ok recs => Except.ok (step.2 :: recs)

/-- Model of `extractBboxMetadataToVtkTableNode` restricted to the `poly_infos` it builds:
both variables start unbound. -/
def extractBboxRecords (ippZ : String → ℚ) (groups : List PlanarROIGroup) :
    Except String (List BboxRecord) :=
  extractBboxLoop ippZ ⟨none, none⟩ groups

/-- A group carrying an Image-Region POLYLINE ROI (the condition guarding the
geometry assignments). -/
def hasPolylineROI (g : PlanarROIGroup) : Bool :=
  imageRegionMatches g && g.roi.GraphicType == "POLYLINE"

/-! ## Theorems -/

/-- C1 (counterexample): on the base-name list `["A","A","B","A"]`,
`enumerateDuplicateNames` does **not** return the claimed `["A (3)","A (2)","B","A"]`
— the first occurrence does not keep the bare name. -/
theorem enumerateDuplicateNames_claim_counterexample :
    enumerateDuplicateNames ["A", "A", "B", "A"] ≠ ["A (3)", "A (2)", "B", "A"] := by
  decide

/-- C1 (amended): `enumerateDuplicateNames` on `["A","A","B","A"]` yields
`["A (1)","A (2)","B","A (3)"]`: every occurrence of a duplicated name is suffixed
with an occurrence counter that, processed in reverse item order, decrements from
the total count at the last occurrence down to `(1)` at the first occurrence; the
once-occurring name `"B"` is left unchanged. -/
theorem enumerateDuplicateNames_AABA :
    enumerateDuplicateNames ["A", "A", "B", "A"] = ["A (1)", "A (2)", "B", "A (3)"] := by
  decide

/-- C2 (code bug): the study-level fallback of `getDateTime` concatenates
`StudyDate` with `StudyDate` (line 159) instead of `StudyTime`, so a report with
only study-level timestamps (here `StudyDate = "20230101"`,
`StudyTime = "120000"`) gets the unparseable 16-digit key and falls to the `""`
sentinel, while the claimed key `StudyDate+StudyTime` parses fine. -/
theorem getDateTime_study_fallback_bug :
    getDateTime ⟨none, none, some "20230101", some "120000"⟩ = none ∧
    strptimeYmdHMS ("20230101" ++ "20230101") = none ∧
    getDateTimeClaimed ⟨none, none, some "20230101", some "120000"⟩ =
      some 20230101120000 := by
  refine ⟨?_, ?_, ?_⟩ <;> decide

/-- C3 (counterexample): an item with no `ConceptNameCodeSequence` makes
`isConcept` raise (`Except.error`), not return `false`. -/
theorem isConcept_absent_counterexample :
    isConcept ⟨none⟩ "length" = Except.error "AttributeError: ConceptNameCodeSequence" ∧
    isConcept ⟨none⟩ "length" ≠ Except.ok false := by
  refine ⟨rfl, ?_⟩
  intro h
  exact Except.noConfusion (Eq.trans (Eq.symm rfl) h)

/-- C3 (amended): for a content item that does have a concept-name code,
`isConcept` returns `ok true` iff the scheme designator and code value of the code both
equal the registry entry; the code meaning is never consulted (changing it never
changes the result); and an item with a missing concept-name code raises an error
rather than yielding `false`. -/
theorem isConcept_scheme_value_only (item : ContentItem) (key : String)
    (code : ConceptCode) (rest : List ConceptCode) (scheme value : String)
    (hitem : item.ConceptNameCodeSequence = some (code :: rest))
    (hreg : codings key = some (scheme, value)) :
    (isConcept item key = Except.ok true ↔
      code.CodingSchemeDesignator = scheme ∧ code.CodeValue = value) ∧
    (∀ meaning,
      isConcept ⟨some ({ code with CodeMeaning := meaning } :: rest)⟩ key =
        isConcept item key) ∧
    (∀ itemX : ContentItem, itemX.ConceptNameCodeSequence = none →
      isConcept itemX key = Except.error "AttributeError: ConceptNameCodeSequence") := by
  refine ⟨?_, ?_, ?_⟩
  · simp [isConcept, hitem, hreg]
  · intro meaning
    simp [isConcept, hitem, hreg]
  · intro itemX hX
    simp [isConcept, hX]

/-- C3 (witness for the amended theorem). -/
theorem isConcept_scheme_value_only_witness :
    (isConcept ⟨some [⟨"G-D7FE", "SRT", "Length"⟩]⟩ "length" = Except.ok true ↔
      "SRT" = "SRT" ∧ "G-D7FE" = "G-D7FE") ∧
    (∀ meaning,
      isConcept ⟨some [⟨"G-D7FE", "SRT", meaning⟩]⟩ "length" =
        isConcept ⟨some [⟨"G-D7FE", "SRT", "Length"⟩]⟩ "length") ∧
    (∀ itemX : ContentItem, itemX.ConceptNameCodeSequence = none →
      isConcept itemX "length" =
        Except.error "AttributeError: ConceptNameCodeSequence") :=
  isConcept_scheme_value_only ⟨some [⟨"G-D7FE", "SRT", "Length"⟩]⟩ "length"
    ⟨"G-D7FE", "SRT", "Length"⟩ [] "SRT" "G-D7FE" rfl rfl

/-- C4 (counterexample): with an axial orientation, origin `(0,0,0)`, row pixel
spacing `PixelSpacing[0] = 2` and column pixel spacing `PixelSpacing[1] = 3`, the
two points the length-ruler path computes for polyline `[0,0,10,0]` differ in x by
`10 * 3 = 30`, not by `10 * rowPixelSpacing = 20` as claimed. -/
theorem lengthRulerPoints_rowSpacing_counterexample :
    ¬((lengthRulerPoints ⟨⟨0, 0, 0⟩, ⟨1, 0, 0⟩, ⟨0, 1, 0⟩, 2, 3⟩ (0, 0, 10, 0)).2.x -
      (lengthRulerPoints ⟨⟨0, 0, 0⟩, ⟨1, 0, 0⟩, ⟨0, 1, 0⟩, 2, 3⟩ (0, 0, 10, 0)).1.x =
      10 * 2) := by
  simp only [lengthRulerPoints, vadd, vscale]
  norm_num

/-- C4 (amended): for any origin and pixel spacings, with the axial orientation
`ImageOrientationPatient = (1,0,0,0,1,0)`, the polyline `[0,0,10,0]` produces two
points (before the `lpsToRAS` sign flip) that differ only in the x-axis, by exactly
`10 *` the **column** pixel spacing `PixelSpacing[1]`
(`alongColumnVector = IOP[:3] * PixelSpacing[1]` per lines 998-1000). -/
theorem lengthRulerPoints_polyline_0_0_10_0 (origin : Vec3) (rowSp colSp : ℚ) :
    ((lengthRulerPoints ⟨origin, ⟨1, 0, 0⟩, ⟨0, 1, 0⟩, rowSp, colSp⟩
        (0, 0, 10, 0)).2.x =
      (lengthRulerPoints ⟨origin, ⟨1, 0, 0⟩, ⟨0, 1, 0⟩, rowSp, colSp⟩
        (0, 0, 10, 0)).1.x + 10 * colSp) ∧
    ((lengthRulerPoints ⟨origin, ⟨1, 0, 0⟩, ⟨0, 1, 0⟩, rowSp, colSp⟩
        (0, 0, 10, 0)).2.y =
      (lengthRulerPoints ⟨origin, ⟨1, 0, 0⟩, ⟨0, 1, 0⟩, rowSp, colSp⟩
        (0, 0, 10, 0)).1.y) ∧
    ((lengthRulerPoints ⟨origin, ⟨1, 0, 0⟩, ⟨0, 1, 0⟩, rowSp, colSp⟩
        (0, 0, 10, 0)).2.z =
      (lengthRulerPoints ⟨origin, ⟨1, 0, 0⟩, ⟨0, 1, 0⟩, rowSp, colSp⟩
        (0, 0, 10, 0)).1.z) := by
  refine ⟨?_, ?_, ?_⟩ <;> simp [lengthRulerPoints, vadd, vscale]

/-- C5 (confirmed): when the file-lookup collaborator cannot locate the referenced
source-image instance, the length-ruler path raises (`Except.error`, and it errors
in exactly that case), while the referenced-SOP access of the bounding-box path never
raises — on failure it returns normally with the diagnostic merely printed. -/
theorem lengthPath_raises_bboxPath_prints
    (fileForInstance : String → Option String) (uid : String) (acc : Option String) :
    ((∃ e, resolveLengthReference fileForInstance uid = Except.error e) ↔
      (fileForInstance uid = none ∨ fileForInstance uid = some "")) ∧
    (∃ printed v, bboxRefSOPAccess acc = Except.ok (printed, v)) ∧
    bboxRefSOPAccess none =
      Except.ok (["Cannot access referenced SOPInstanceUID"], none) := by
  refine ⟨?_, ?_, rfl⟩
  · constructor
    · rintro ⟨e, he⟩
      rw [resolveLengthReference] at he
      cases hf : fileForInstance uid with
      | none => exact Or.inl rfl
      | some p =>
        rw [hf] at he
        by_cases hp : p = ""
        · exact Or.inr (by rw [hp])
        · simp [hp] at he
    · intro h
      refine ⟨"Referenced image is not found in the database. Polyline point positions cannot be determined in 3D.", ?_⟩
      rw [resolveLengthReference]
      rcases h with hf | hf
      · rw [hf]
      · rw [hf]
        simp
  · cases acc with
    | none => exact ⟨_, _, rfl⟩
    | some u => exact ⟨_, _, rfl⟩

/-- C7 (confirmed): for any polyline of 4 `(x,y)` pairs, the bounding-box
computation sets `width = max_x - min_x` and `height = max_y - min_y` over the four
x- and four y-values and the center to `(min+max)/2` per axis; hence width and
height are non-negative, the center lies within `[min, max]` on each axis, and a
degenerate polyline whose four points coincide yields `width = height = 0`. -/
theorem bboxDerived_properties (b0 b1 b2 b3 b4 b5 b6 b7 : ℚ) :
    ((bboxDerived b0 b1 b2 b3 b4 b5 b6 b7).width =
      (bboxDerived b0 b1 b2 b3 b4 b5 b6 b7).max_x -
      (bboxDerived b0 b1 b2 b3 b4 b5 b6 b7).min_x) ∧
    ((bboxDerived b0 b1 b2 b3 b4 b5 b6 b7).height =
      (bboxDerived b0 b1 b2 b3 b4 b5 b6 b7).max_y -
      (bboxDerived b0 b1 b2 b3 b4 b5 b6 b7).min_y) ∧
    ((bboxDerived b0 b1 b2 b3 b4 b5 b6 b7).center_x =
      ((bboxDerived b0 b1 b2 b3 b4 b5 b6 b7).min_x +
       (bboxDerived b0 b1 b2 b3 b4 b5 b6 b7).max_x) / 2) ∧
    ((bboxDerived b0 b1 b2 b3 b4 b5 b6 b7).center_y =
      ((bboxDerived b0 b1 b2 b3 b4 b5 b6 b7).min_y +
       (bboxDerived b0 b1 b2 b3 b4 b5 b6 b7).max_y) / 2) ∧
    (0 ≤ (bboxDerived b0 b1 b2 b3 b4 b5 b6 b7).width) ∧
    (0 ≤ (bboxDerived b0 b1 b2 b3 b4 b5 b6 b7).height) ∧
    ((bboxDerived b0 b1 b2 b3 b4 b5 b6 b7).min_x ≤
      (bboxDerived b0 b1 b2 b3 b4 b5 b6 b7).center_x) ∧
    ((bboxDerived b0 b1 b2 b3 b4 b5 b6 b7).center_x ≤
      (bboxDerived b0 b1 b2 b3 b4 b5 b6 b7).max_x) ∧
    ((bboxDerived b0 b1 b2 b3 b4 b5 b6 b7).min_y ≤
      (bboxDerived b0 b1 b2 b3 b4 b5 b6 b7).center_y) ∧
    ((bboxDerived b0 b1 b2 b3 b4 b5 b6 b7).center_y ≤
      (bboxDerived b0 b1 b2 b3 b4 b5 b6 b7).max_y) ∧
    ((bboxDerived b0 b1 b0 b1 b0 b1 b0 b1).width = 0) ∧
    ((bboxDerived b0 b1 b0 b1 b0 b1 b0 b1).height = 0) := by
  have hx0 : min (min b0 b2) (min b4 b6) ≤ b0 :=
    le_trans (min_le_left _ _) (min_le_left _ _)
  have hx1 : b0 ≤ max (max b0 b2) (max b4 b6) :=
    le_trans (le_max_left _ _) (le_max_left _ _)
  have hy0 : min (min b1 b3) (min b5 b7) ≤ b1 :=
    le_trans (min_le_left _ _) (min_le_left _ _)
  have hy1 : b1 ≤ max (max b1 b3) (max b5 b7) :=
    le_trans (le_max_left _ _) (le_max_left _ _)
  refine ⟨rfl, rfl, by simp [bboxDerived]; ring, by simp [bboxDerived]; ring,
    ?_, ?_, ?_, ?_, ?_, ?_, ?_, ?_⟩ <;>
    simp only [bboxDerived, min_self, max_self] <;> linarith

/-- C8 (confirmed): `isDICOMTID1500` returns `true` exactly when the modality is
`"SR"`, the SOP class UID is one of the three accepted SR storage classes, and the
`TemplateIdentifier` of the first `ContentTemplateSequence` item is `"1500"`; any
dataset failing a condition — including one with the relevant attributes absent —
yields `false` (the function is total: exceptions of the template access are
folded into `false` by the `try/except` of the source). -/
theorem isDICOMTID1500_iff (ds : SRHeader) :
    isDICOMTID1500 ds = true ↔
      (ds.Modality = some "SR" ∧
       (ds.SOPClassUID = some UID_EnhancedSRStorage ∨
        ds.SOPClassUID = some UID_ComprehensiveSRStorage ∨
        ds.SOPClassUID = some UID_Comprehensive3DSRStorage) ∧
       (∃ item rest, ds.ContentTemplateSequence = some (item :: rest) ∧
          item.TemplateIdentifier = some "1500")) := by
  obtain ⟨mo, cls, cts⟩ := ds
  have hMo : (mo.getD "" == "SR") = true ↔ mo = some "SR" := by
    cases mo with
    | none => exact ⟨fun h => absurd h (by decide), fun h => Option.noConfusion h⟩
    | some m => simp
  have hCls : ((cls.getD "" == UID_EnhancedSRStorage ||
                cls.getD "" == UID_ComprehensiveSRStorage ||
                cls.getD "" == UID_Comprehensive3DSRStorage)) = true ↔
      (cls = some UID_EnhancedSRStorage ∨ cls = some UID_ComprehensiveSRStorage ∨
       cls = some UID_Comprehensive3DSRStorage) := by
    cases cls with
    | none =>
      refine ⟨fun h => absurd h (by decide), fun h => ?_⟩
      rcases h with h | h | h <;> exact Option.noConfusion h
    | some c => simp [or_assoc]
  have hCts : templateIs1500 cts = true ↔
      (∃ item rest, cts = some (item :: rest) ∧
        item.TemplateIdentifier = some "1500") := by
    cases cts with
    | none => simp [templateIs1500]
    | some l =>
      cases l with
      | nil => simp [templateIs1500]
      | cons item rest =>
        obtain ⟨ti⟩ := item
        cases ti with
        | none => simp [templateIs1500]
        | some t => simp [templateIs1500]
  rw [isDICOMTID1500]
  simp only [Bool.and_eq_true]
  rw [hMo, hCls, hCts, and_assoc]

/-- C10 (confirmed): `checkIfSRContainsBbox` resets its flag on every
non-matching qualitative evaluation, so it returns `1` exactly when the **last**
qualitative evaluation examined (walking all planar ROI measurement groups in
order) is the DCM 130400 / SCT 75958009 "Bounded by" pair — not when any
evaluation in the document matches.  In particular a matching evaluation followed
by any non-matching one yields `0`. -/
theorem checkIfSRContainsBbox_last_wins (groups : List QEGroup) :
    checkIfSRContainsBbox groups = 1 ↔
      (match ((groups.map (fun g => g.qualitativeEvaluations)).flatten).getLast? with
       | none => False
       | some q => isBoundedByEval q = true) := by
  have hfold : ∀ (l : List QualitativeEvaluation) (init : Nat),
      l.foldl (fun _fl q => if isBoundedByEval q then 1 else 0) init =
        (match l.getLast? with
         | none => init
         | some q => if isBoundedByEval q then 1 else 0) := by
    intro l
    induction l with
    | nil => intro init; rfl
    | cons q rest ih =>
      intro init
      rw [List.foldl_cons, ih]
      cases rest with
      | nil => rfl
      | cons r rs =>
        rw [List.getLast?_cons_cons]
        cases hl : (r :: rs).getLast? with
        | none => exact absurd hl (by simp [List.getLast?_eq_none_iff])
        | some x => rfl
  have hjoin : checkIfSRContainsBbox groups =
      ((groups.map (fun g => g.qualitativeEvaluations)).flatten).foldl
        (fun _fl q => if isBoundedByEval q then 1 else 0) 0 := by
    rw [checkIfSRContainsBbox, List.foldl_flatten, List.foldl_map]
  rw [hjoin, hfold]
  cases hlast : ((groups.map (fun g => g.qualitativeEvaluations)).flatten).getLast? with
  | none => simp
  | some q =>
    by_cases hq : isBoundedByEval q = true
    · simp [hq]
    · simp [hq]

/-- Reading back the key just written into the association-list model of a Python
dict. -/
theorem assocGet_assocSet_self (m : List (String × List String)) (k : String)
    (v : List String) : assocGet (assocSet m k v) k = some v := by
  induction m with
  | nil => simp [assocSet, assocGet]
  | cons e rest ih =>
    obtain ⟨k0, v0⟩ := e
    by_cases h : k0 = k
    · subst h
      simp [assocSet, assocGet]
    · simp [assocSet, assocGet, h, ih]

/-- Effect of the classification fold over the evidence pairs of one dataset: the
own dict entry of the dataset accumulates the Segmentation series, the RWVM list gets
the RWVM series appended, and no warnings are emitted. -/
theorem foldPairs_spec (uid : String) (ps : List (String × SOPSeqRef)) :
    ∀ (ld : Loadable) (acc : List String),
      assocGet ld.ReferencedSegmentationInstanceUIDs uid = some acc →
      (assocGet
          (ps.foldl (classifyRef uid) ld).ReferencedSegmentationInstanceUIDs uid
          = some (acc ++ segSeriesOfPairs ps) ∧
       (ps.foldl (classifyRef uid) ld).ReferencedRWVMSeriesInstanceUIDs
          = ld.ReferencedRWVMSeriesInstanceUIDs ++ rwvmSeriesOfPairs ps ∧
       (ps.foldl (classifyRef uid) ld).warnings = ld.warnings) := by
  induction ps with
  | nil =>
    intro ld acc hacc
    simp [segSeriesOfPairs, rwvmSeriesOfPairs, hacc]
  | cons p rest ih =>
    intro ld acc hacc
    rw [List.foldl_cons]
    by_cases hseg : p.2.ReferencedSOPClassUID = UID_SegmentationStorage
    · have hstep : classifyRef uid ld p =
          { ld with ReferencedSegmentationInstanceUIDs :=
              assocSet ld.ReferencedSegmentationInstanceUIDs uid (acc ++ [p.1]) } := by
        rw [classifyRef]
        simp [hseg, assocAppend, hacc]
      have hacc2 : assocGet
          (classifyRef uid ld p).ReferencedSegmentationInstanceUIDs uid
          = some (acc ++ [p.1]) := by
        rw [hstep]
        exact assocGet_assocSet_self _ _ _
      obtain ⟨h1, h2, h3⟩ := ih (classifyRef uid ld p) (acc ++ [p.1]) hacc2
      refine ⟨?_, ?_, ?_⟩
      · rw [h1]
        simp [segSeriesOfPairs, List.filter_cons, hseg]
      · rw [h2, hstep]
        simp [rwvmSeriesOfPairs, List.filter_cons, hseg]
      · rw [h3, hstep]
    · have hne : UID_RealWorldValueMappingStorage ≠ UID_SegmentationStorage := by
        decide
      by_cases hrwvm : p.2.ReferencedSOPClassUID = UID_RealWorldValueMappingStorage
      · have hstep : classifyRef uid ld p =
            { ld with ReferencedRWVMSeriesInstanceUIDs :=
                ld.ReferencedRWVMSeriesInstanceUIDs ++ [p.1] } := by
          rw [classifyRef]
          simp [hseg, hrwvm, hne]
        have hacc2 : assocGet
            (classifyRef uid ld p).ReferencedSegmentationInstanceUIDs uid
            = some acc := by
          rw [hstep]
          exact hacc
        obtain ⟨h1, h2, h3⟩ := ih (classifyRef uid ld p) acc hacc2
        refine ⟨?_, ?_, ?_⟩
        · rw [h1]
          simp [segSeriesOfPairs, List.filter_cons, hseg]
        · rw [h2, hstep]
          simp [rwvmSeriesOfPairs, List.filter_cons, hseg, hrwvm, hne]
        · rw [h3, hstep]
      · have hstep : classifyRef uid ld p =
            { ld with ReferencedOtherInstanceUIDs :=
                ld.ReferencedOtherInstanceUIDs ++ [p.2.ReferencedSOPInstanceUID] } := by
          rw [classifyRef]
          simp [hseg, hrwvm]
        have hacc2 : assocGet
            (classifyRef uid ld p).ReferencedSegmentationInstanceUIDs uid
            = some acc := by
          rw [hstep]
          exact hacc
        obtain ⟨h1, h2, h3⟩ := ih (classifyRef uid ld p) acc hacc2
        refine ⟨?_, ?_, ?_⟩
        · rw [h1]
          simp [segSeriesOfPairs, List.filter_cons, hseg]
        · rw [h2, hstep]
          simp [rwvmSeriesOfPairs, List.filter_cons, hseg, hrwvm]
        · rw [h3, hstep]

/-- Effect of processing one dataset: its dict entry holds exactly its own
Segmentation series (the reset at the top of the loop discards anything older
under the same key), the RWVM list grows by its RWVM series, and no warning is
emitted inside the loop. -/
theorem processDataset_spec (ld : Loadable) (ds : SRDatasetRefs) :
    assocGet (processDataset ld ds).ReferencedSegmentationInstanceUIDs
        ds.SOPInstanceUID = some (segSeriesOf ds) ∧
    (processDataset ld ds).ReferencedRWVMSeriesInstanceUIDs
        = ld.ReferencedRWVMSeriesInstanceUIDs ++ rwvmSeriesOf ds ∧
    (processDataset ld ds).warnings = ld.warnings := by
  rw [processDataset]
  cases hev : ds.CurrentRequestedProcedureEvidenceSequence with
  | none =>
    refine ⟨?_, ?_, rfl⟩
    · simp only [segSeriesOf, hev]
      exact assocGet_assocSet_self _ _ _
    · simp [rwvmSeriesOf, hev]
  | some ev =>
    obtain ⟨h1, h2, h3⟩ := foldPairs_spec ds.SOPInstanceUID (evidencePairs ev)
      { ld with ReferencedSegmentationInstanceUIDs :=
          assocSet ld.ReferencedSegmentationInstanceUIDs ds.SOPInstanceUID [] }
      [] (assocGet_assocSet_self _ _ _)
    refine ⟨?_, ?_, ?_⟩
    · simp only [segSeriesOf, hev]
      simpa using h1
    · simp only [rwvmSeriesOf, hev]
      simpa using h2
    · simpa using h3

/-- Effect of the whole dataset loop: the dict entry keyed by the UID of the
**last** dataset holds exactly that final Segmentation series list, the RWVM list is the
concatenation over **all** datasets, and the loop emits no warnings. -/
theorem foldDatasets_spec (l : List SRDatasetRefs) :
    ∀ (d : SRDatasetRefs) (ld : Loadable),
      assocGet ((d :: l).foldl processDataset ld).ReferencedSegmentationInstanceUIDs
          ((l.getLastD d).SOPInstanceUID) = some (segSeriesOf (l.getLastD d)) ∧
      ((d :: l).foldl processDataset ld).ReferencedRWVMSeriesInstanceUIDs
          = ld.ReferencedRWVMSeriesInstanceUIDs ++ ((d :: l).map rwvmSeriesOf).flatten ∧
      ((d :: l).foldl processDataset ld).warnings = ld.warnings := by
  induction l with
  | nil =>
    intro d ld
    simpa using processDataset_spec ld d
  | cons d2 l2 ih =>
    intro d ld
    obtain ⟨g1, g2, g3⟩ := processDataset_spec ld d
    obtain ⟨h1, h2, h3⟩ := ih d2 (processDataset ld d)
    rw [List.getLastD_cons]
    refine ⟨h1, ?_, ?_⟩
    · rw [List.foldl_cons, h2, g2]
      simp
    · rw [List.foldl_cons, h3, g3]

/-- C6 (counterexample): a two-report load where the **first** report references
two Segmentation series and the last references none emits **no** warning — the
SEG multiplicity check (line 138) only inspects the loop variable left over from
the last iteration, so "whenever any single report references more than one
Segmentation series, a warning is emitted" fails. -/
theorem createLoadable_multiplicity_counterexample :
    ∃ ld, createLoadableAndAddReferences
        [⟨"sr1", some [⟨[⟨"segA", [⟨UID_SegmentationStorage, "i1"⟩]⟩,
                        ⟨"segB", [⟨UID_SegmentationStorage, "i2"⟩]⟩]⟩]⟩,
         ⟨"sr2", none⟩] = Except.ok ld ∧
      assocGet ld.ReferencedSegmentationInstanceUIDs "sr1" = some ["segA", "segB"] ∧
      ld.warnings = [] :=
  ⟨_, rfl, rfl, rfl⟩

/-- C6 (amended): processing never rejects references (the result is `ok` for any
non-empty dataset list) and the two multiplicity warnings are non-fatal
diagnostics, but their triggers diverge from the per-report claim: the SEG warning
is emitted iff the **last** report of the batch references more than one
Segmentation series (earlier reports are never checked), and the RWVM warning is
emitted iff the RWVM references accumulated across **all** reports number more
than one — not iff some single report references more than one.  (For a
single-report load the two conditions coincide with the claim.) -/
theorem createLoadable_warning_triggers (d : SRDatasetRefs) (l : List SRDatasetRefs) :
    ∃ ld, createLoadableAndAddReferences (d :: l) = Except.ok ld ∧
      ld.ReferencedRWVMSeriesInstanceUIDs = ((d :: l).map rwvmSeriesOf).flatten ∧
      ld.warnings =
        (if 1 < (segSeriesOf (l.getLastD d)).length
         then [segMultiplicityWarning] else []) ++
        (if 1 < ((d :: l).map rwvmSeriesOf).flatten.length
         then [rwvmMultiplicityWarning] else []) := by
  obtain ⟨h1, h2, h3⟩ :=
    foldDatasets_spec l d (⟨[], [], [], [], []⟩ : Loadable)
  refine ⟨_, rfl, ?_, ?_⟩
  · simpa [createLoadableAndAddReferences] using h2
  · simp only [createLoadableAndAddReferences, h1, h2, h3]
    simp

/-- C9 (counterexample): a later group that is Image-Region with a non-POLYLINE
graphic type and a successful referenced-SOP access does **not** reuse the
referenced SOP instance UID of the previously processed group — lines 432-436 run
for every Image-Region group and re-assign it fresh (here `"s2"`, while the stale
bbox geometry is still reused).  The claim lists the referenced SOP instance UID
among the values reused by any later group without an Image-Region POLYLINE ROI,
so it fails at this input. -/
theorem extractBbox_freshSOP_counterexample :
    ∃ r1 r2, extractBboxRecords (fun _u => (0 : ℚ))
        [⟨"t1", ⟨"111030", "DCM", "Image Region"⟩,
          ⟨some "s", "POLYLINE", [0, 0, 4, 0, 4, 3, 0, 3]⟩⟩,
         ⟨"t2", ⟨"111030", "DCM", "Image Region"⟩,
          ⟨some "s2", "POINT", [1, 2, 0]⟩⟩] = Except.ok [r1, r2] ∧
      r1.SOPInstanceUID = "s" ∧
      r2.SOPInstanceUID = "s2" ∧
      r2.SOPInstanceUID ≠ r1.SOPInstanceUID ∧
      r2.polyline = r1.polyline ∧
      r2.width = r1.width := by
  refine ⟨_, _, rfl, rfl, rfl, ?_, rfl, rfl⟩
  decide

/-- C9 (amended): the geometry variables are assigned only inside the
Image-Region branch (referenced SOP UID, lines 432-436) and its nested POLYLINE
branch (bbox/width/height/center, lines 438-451) but read unconditionally for
every group.  First conjunct: if the **first** group has no Image-Region POLYLINE
ROI, the whole extraction raises (the unbound-variable read).  Second conjunct: a
later group without such a ROI is not excluded — its record silently reuses the
stale bbox polyline, width, height and center of the previously processed
polyline-bearing group; the referenced SOP instance UID is reused only when the
later group is not Image-Region or its referenced-SOP access fails, while an
Image-Region group with a successful access stores its own freshly read UID. -/
theorem extractBbox_unbound_stale_geometry (ippZ : String → ℚ) :
    (∀ (g : PlanarROIGroup) (rest : List PlanarROIGroup),
      hasPolylineROI g = false →
      ∃ e, extractBboxRecords ippZ (g :: rest) = Except.error e) ∧
    (∀ (g1 g2 : PlanarROIGroup) (s : String) (b0 b1 b2 b3 b4 b5 b6 b7 : ℚ)
        (tail : List ℚ),
      imageRegionMatches g1 = true →
      g1.roi.GraphicType = "POLYLINE" →
      g1.roi.referencedSOPInstanceUIDAccess = some s →
      g1.roi.GraphicData = b0 :: b1 :: b2 :: b3 :: b4 :: b5 :: b6 :: b7 :: tail →
      hasPolylineROI g2 = false →
      ∃ r1 r2, extractBboxRecords ippZ [g1, g2] = Except.ok [r1, r2] ∧
        r2.TrackingIdentifier = g2.tracking_identifier ∧
        r2.polyline = r1.polyline ∧
        r2.width = r1.width ∧
        r2.height = r1.height ∧
        r2.center_x = r1.center_x ∧
        r2.center_y = r1.center_y ∧
        r2.center_z = r1.center_z ∧
        r2.SOPInstanceUID =
          (if imageRegionMatches g2 then
            (match g2.roi.referencedSOPInstanceUIDAccess with
             | some u => u
             | none => r1.SOPInstanceUID)
           else r1.SOPInstanceUID)) := by
  constructor
  · intro g rest h
    rw [hasPolylineROI, Bool.and_eq_false_iff] at h
    refine ⟨"UnboundLocalError", ?_⟩
    rcases h with hIR | hGT
    · simp [extractBboxRecords, extractBboxLoop, processBboxGroup, hIR]
    · cases hIR : imageRegionMatches g with
      | false => simp [extractBboxRecords, extractBboxLoop, processBboxGroup, hIR]
      | true => simp [extractBboxRecords, extractBboxLoop, processBboxGroup, hIR, hGT]
  · intro g1 g2 s b0 b1 b2 b3 b4 b5 b6 b7 tail hIR1 hGT1 hSOP1 hGD1 hNoPoly2
    by_cases hIR2 : imageRegionMatches g2 = true
    · have hGT2 : (g2.roi.GraphicType == "POLYLINE") = false := by
        rw [hasPolylineROI, hIR2, Bool.true_and] at hNoPoly2
        exact hNoPoly2
      cases hacc : g2.roi.referencedSOPInstanceUIDAccess with
      | some u =>
        refine ⟨{ TrackingIdentifier := g1.tracking_identifier,
                  SOPInstanceUID := s,
                  polyline := [(b0, b1), (b2, b3), (b4, b5), (b6, b7)],
                  width := (bboxDerived b0 b1 b2 b3 b4 b5 b6 b7).width,
                  height := (bboxDerived b0 b1 b2 b3 b4 b5 b6 b7).height,
                  center_x := -(bboxDerived b0 b1 b2 b3 b4 b5 b6 b7).center_x,
                  center_y := -(bboxDerived b0 b1 b2 b3 b4 b5 b6 b7).center_y,
                  center_z := ippZ s },
                { TrackingIdentifier := g2.tracking_identifier,
                  SOPInstanceUID := u,
                  polyline := [(b0, b1), (b2, b3), (b4, b5), (b6, b7)],
                  width := (bboxDerived b0 b1 b2 b3 b4 b5 b6 b7).width,
                  height := (bboxDerived b0 b1 b2 b3 b4 b5 b6 b7).height,
                  center_x := -(bboxDerived b0 b1 b2 b3 b4 b5 b6 b7).center_x,
                  center_y := -(bboxDerived b0 b1 b2 b3 b4 b5 b6 b7).center_y,
                  center_z := ippZ s },
                ?_, rfl, rfl, rfl, rfl, rfl, rfl, rfl, ?_⟩
        · simp [extractBboxRecords, extractBboxLoop, processBboxGroup,
            hIR1, hGT1, hSOP1, hGD1, hIR2, hGT2, hacc]
        · simp [hIR2, hacc]
      | none =>
        refine ⟨{ TrackingIdentifier := g1.tracking_identifier,
                  SOPInstanceUID := s,
                  polyline := [(b0, b1), (b2, b3), (b4, b5), (b6, b7)],
                  width := (bboxDerived b0 b1 b2 b3 b4 b5 b6 b7).width,
                  height := (bboxDerived b0 b1 b2 b3 b4 b5 b6 b7).height,
                  center_x := -(bboxDerived b0 b1 b2 b3 b4 b5 b6 b7).center_x,
                  center_y := -(bboxDerived b0 b1 b2 b3 b4 b5 b6 b7).center_y,
                  center_z := ippZ s },
                { TrackingIdentifier := g2.tracking_identifier,
                  SOPInstanceUID := s,
                  polyline := [(b0, b1), (b2, b3), (b4, b5), (b6, b7)],
                  width := (bboxDerived b0 b1 b2 b3 b4 b5 b6 b7).width,
                  height := (bboxDerived b0 b1 b2 b3 b4 b5 b6 b7).height,
                  center_x := -(bboxDerived b0 b1 b2 b3 b4 b5 b6 b7).center_x,
                  center_y := -(bboxDerived b0 b1 b2 b3 b4 b5 b6 b7).center_y,
                  center_z := ippZ s },
                ?_, rfl, rfl, rfl, rfl, rfl, rfl, rfl, ?_⟩
        · simp [extractBboxRecords, extractBboxLoop, processBboxGroup,
            hIR1, hGT1, hSOP1, hGD1, hIR2, hGT2, hacc]
        · simp [hIR2, hacc]
    · have hIR2f : imageRegionMatches g2 = false := by
        cases h2 : imageRegionMatches g2 with
        | false => rfl
        | true => exact absurd h2 hIR2
      refine ⟨{ TrackingIdentifier := g1.tracking_identifier,
                SOPInstanceUID := s,
                polyline := [(b0, b1), (b2, b3), (b4, b5), (b6, b7)],
                width := (bboxDerived b0 b1 b2 b3 b4 b5 b6 b7).width,
                height := (bboxDerived b0 b1 b2 b3 b4 b5 b6 b7).height,
                center_x := -(bboxDerived b0 b1 b2 b3 b4 b5 b6 b7).center_x,
                center_y := -(bboxDerived b0 b1 b2 b3 b4 b5 b6 b7).center_y,
                center_z := ippZ s },
              { TrackingIdentifier := g2.tracking_identifier,
                SOPInstanceUID := s,
                polyline := [(b0, b1), (b2, b3), (b4, b5), (b6, b7)],
                width := (bboxDerived b0 b1 b2 b3 b4 b5 b6 b7).width,
                height := (bboxDerived b0 b1 b2 b3 b4 b5 b6 b7).height,
                center_x := -(bboxDerived b0 b1 b2 b3 b4 b5 b6 b7).center_x,
                center_y := -(bboxDerived b0 b1 b2 b3 b4 b5 b6 b7).center_y,
                center_z := ippZ s },
              ?_, rfl, rfl, rfl, rfl, rfl, rfl, rfl, ?_⟩
      · simp [extractBboxRecords, extractBboxLoop, processBboxGroup,
          hIR1, hGT1, hSOP1, hGD1, hIR2f]
      · simp [hIR2f]

/-- C9 (witness): a concrete first group without a polyline ROI makes the
extraction raise, and a concrete polyline group followed by an Image-Region POINT
group with its own successful referenced-SOP access yields two records sharing
the stale bbox geometry while the second carries its fresh SOP UID. -/
theorem extractBbox_unbound_stale_geometry_witness :
    (∃ e, extractBboxRecords (fun _u => (0 : ℚ))
        [⟨"t1", ⟨"x", "y", "z"⟩, ⟨none, "POINT", []⟩⟩] = Except.error e) ∧
    (∃ r1 r2, extractBboxRecords (fun _u => (0 : ℚ))
        [⟨"t1", ⟨"111030", "DCM", "Image Region"⟩,
          ⟨some "s", "POLYLINE", [0, 0, 4, 0, 4, 3, 0, 3]⟩⟩,
         ⟨"t2", ⟨"111030", "DCM", "Image Region"⟩,
          ⟨some "s2", "POINT", [1, 2, 0]⟩⟩] = Except.ok [r1, r2] ∧
      r2.TrackingIdentifier = "t2" ∧
      r2.polyline = r1.polyline ∧
      r2.width = r1.width ∧
      r2.height = r1.height ∧
      r2.center_x = r1.center_x ∧
      r2.center_y = r1.center_y ∧
      r2.center_z = r1.center_z ∧
      r2.SOPInstanceUID = "s2") :=
  ⟨(extractBbox_unbound_stale_geometry (fun _u => (0 : ℚ))).1
      ⟨"t1", ⟨"x", "y", "z"⟩, ⟨none, "POINT", []⟩⟩ [] (by decide),
   (extractBbox_unbound_stale_geometry (fun _u => (0 : ℚ))).2
      ⟨"t1", ⟨"111030", "DCM", "Image Region"⟩,
        ⟨some "s", "POLYLINE", [0, 0, 4, 0, 4, 3, 0, 3]⟩⟩
      ⟨"t2", ⟨"111030", "DCM", "Image Region"⟩,
        ⟨some "s2", "POINT", [1, 2, 0]⟩⟩
      "s" 0 0 4 0 4 3 0 3 [] (by decide) rfl rfl rfl (by decide)⟩

end TID1500
